import Mathlib

/-!
Verification development for the Fillout filtered-responses proxy (`src/app.ts`).

The service exposes one Express endpoint `GET /:formId/filteredResponses` that
validates the request, fetches submissions from the upstream forms API, filters
them by client-supplied clauses, and paginates the result.

Shallow embedding conventions:
* JavaScript numbers are modelled as exact rationals (`ℚ`); no claim in scope
  depends on IEEE-754 rounding.  The JS value `NaN` is modelled by `none` in
  `Option ℚ`; note that in JavaScript `typeof NaN = "number"`, which the
  embedding records via `jsTypeof` being constantly `"number"`.
* JS string builtins (`Number(...)`, `parseInt(...)`, `new Date(...).getTime()`)
  are modelled on the fragments the program can meet: decimal numeric literals
  for `Number`, leading decimal integers for `parseInt`, ISO `YYYY-MM-DD` dates
  for `Date` (exotic forms such as hex/exponent literals or non-ISO date
  strings are out of the model; no claim uses them).
* The upstream HTTP call is an external collaborator: the handler embedding
  takes the fetched submission list as a parameter and reports, alongside the
  response outcome, whether control reached the upstream call.
-/

/-- Payload the source types as `any` and never inspects (calculations,
urlParameters, quiz, documents); passed through unexamined. -/
inductive AnyJson where
  | mk
deriving DecidableEq, Repr

/-- A JS runtime value of TypeScript type `number | string` (question values and
filter-clause values).  JS numbers are modelled as exact rationals. -/
inductive Value where
  | num (n : ℚ)
  | str (s : String)
deriving DecidableEq, Repr

/-- `QuestionType` from `src/app.ts` lines 22-27. -/
structure QuestionType where
  id : String
  name : String
  type : String
  value : Value
deriving DecidableEq, Repr

/-- `SubmissionType` from `src/app.ts` lines 29-38. -/
structure SubmissionType where
  submissionId : String
  submissionTime : String
  lastUpdatedAt : String
  questions : List QuestionType
  calculations : List AnyJson
  urlParameters : List AnyJson
  quiz : AnyJson
  documents : List AnyJson
deriving DecidableEq, Repr

/-- `FilterClauseType` from `src/app.ts` lines 40-44.  The `condition` field is
kept as a runtime string: the request body is untyped JSON at runtime and the
source's `switch` has a `default` branch for unrecognized tags. -/
structure FilterClauseType where
  id : String
  condition : String
  value : Value
deriving DecidableEq, Repr

/-- `ReturnType` from `src/app.ts` lines 46-50. -/
structure ReturnType where
  responses : List SubmissionType
  totalResponses : Nat
  pageCount : Int
deriving DecidableEq, Repr

/-- Numeric value of a list of decimal digit characters. -/
def digitsToNat (cs : List Char) : Nat :=
  cs.foldl (fun a c => a * 10 + (c.toNat - 48)) 0

/-- Modelled JS builtin `Number(s)` on a string: trimmed empty string is `0`;
an optional sign followed by decimal digits with an optional fractional part
parses to an exact rational; anything else is `NaN` (`none`).  Hex, exponent
and `Infinity` forms are outside the model (unused by any claim). -/
def parseDecimal (s : String) : Option ℚ :=
  let t := ((s.toList.dropWhile (fun c => c = ' ')).reverse.dropWhile
    (fun c => c = ' ')).reverse
  if t.isEmpty then some 0
  else
    let (neg, rest) : Bool × List Char :=
      match t with
      | '-' :: cs => (true, cs)
      | '+' :: cs => (false, cs)
      | cs => (false, cs)
    let intPart := rest.takeWhile Char.isDigit
    let rest2 := rest.dropWhile Char.isDigit
    match rest2 with
    | [] =>
        if intPart.isEmpty then none
        else
          let v : ℚ := (digitsToNat intPart : ℚ)
          some (if neg then -v else v)
    | '.' :: frac =>
        let fracDigits := frac.takeWhile Char.isDigit
        let rest3 := frac.dropWhile Char.isDigit
        if rest3.isEmpty then
          if intPart.isEmpty && fracDigits.isEmpty then none
          else
            let v : ℚ :=
              (digitsToNat intPart : ℚ) +
                (digitsToNat fracDigits : ℚ) / ((10 : ℚ) ^ fracDigits.length)
            some (if neg then -v else v)
        else none
    | _ => none

/-- Modelled JS builtin `parseInt(s)` (radix 10): skips leading spaces, reads an
optional sign and then a maximal run of leading digits; `NaN` (`none`) when no
digit is found. -/
def jsParseInt (s : String) : Option Int :=
  let cs := s.toList.dropWhile (fun c => c = ' ')
  let (neg, rest) : Bool × List Char :=
    match cs with
    | '-' :: r => (true, r)
    | '+' :: r => (false, r)
    | r => (false, r)
  let ds := rest.takeWhile Char.isDigit
  if ds.isEmpty then none
  else some (if neg then -(digitsToNat ds : Int) else (digitsToNat ds : Int))

/-- `parseInt(q) || default` as used on `src/app.ts` lines 73-74: an absent
parameter or a parse yielding `NaN` — and also a parse yielding `0`, since `0`
is falsy — produce the default. -/
def parseIntOr (q : Option String) (d : Int) : Int :=
  match q with
  | none => d
  | some s =>
      match jsParseInt s with
      | none => d
      | some n => if n = 0 then d else n

/-- Gregorian leap-year test. -/
def isLeapYear (y : Nat) : Bool :=
  y % 4 = 0 && (y % 100 ≠ 0 || y % 400 = 0)

/-- Days in a month (1-12) of a given year. -/
def daysInMonth (y m : Nat) : Nat :=
  if m = 2 then (if isLeapYear y then 29 else 28)
  else if m = 4 || m = 6 || m = 9 || m = 11 then 30
  else 31

/-- Days from the Unix epoch (1970-01-01) to the civil date `y-m-d`, via the
standard days-from-civil algorithm. -/
def daysFromCivil (y m d : Int) : Int :=
  let yAdj := if m ≤ 2 then y - 1 else y
  let era := Int.fdiv yAdj 400
  let yoe := yAdj - era * 400
  let mp := if m > 2 then m - 3 else m + 9
  let doy := Int.fdiv (153 * mp + 2) 5 + d - 1
  let doe := yoe * 365 + Int.fdiv yoe 4 - Int.fdiv yoe 100 + doy
  era * 146097 + doe - 719468

/-- Modelled JS `new Date(s).getTime()` on a string: an ISO `YYYY-MM-DD` date
(with a valid month and day-of-month) maps to its UTC epoch milliseconds;
anything else is an invalid date, whose time value is `NaN` (`none`). -/
def parseDateMillis (s : String) : Option Int :=
  match s.toList with
  | [y1, y2, y3, y4, '-', m1, m2, '-', d1, d2] =>
      if [y1, y2, y3, y4, m1, m2, d1, d2].all Char.isDigit then
        let y := digitsToNat [y1, y2, y3, y4]
        let m := digitsToNat [m1, m2]
        let d := digitsToNat [d1, d2]
        if 1 ≤ m && m ≤ 12 && 1 ≤ d && d ≤ daysInMonth y m then
          some (daysFromCivil (y : Int) (m : Int) (d : Int) * 86400000)
        else none
      else none
  | _ => none

/-- Modelled `new Date(v).getTime()` on a `number | string` value: a numeric
argument is already an epoch-millisecond timestamp; a string is parsed as a
date (`parseDateMillis`). -/
def dateGetTime (v : Value) : Option ℚ :=
  match v with
  | .num n => some n
  | .str s => (parseDateMillis s).map (fun n => (n : ℚ))

/-- Modelled `Number(v)` on a `number | string` value. -/
def jsNumber (v : Value) : Option ℚ :=
  match v with
  | .num n => some n
  | .str s => parseDecimal s

/-- The coercion applied to both comparison operands in `src/app.ts`
lines 134-142: both the stored value and the clause value are converted by the
*question's* type tag — epoch milliseconds for `"DatePicker"`, `Number(...)`
otherwise. -/
def coerce (qtype : String) (v : Value) : Option ℚ :=
  if qtype == "DatePicker" then dateGetTime v else jsNumber v

/-- JS `typeof` of a coerced operand.  Both coercion branches produce a JS
number — `NaN` included, since `typeof NaN = "number"` — so this is constantly
`"number"`. -/
def jsTypeof (_x : Option ℚ) : String :=
  "number"

/-- JS `>` on two possibly-`NaN` numbers: any comparison with `NaN` is false. -/
def jsGt (a b : Option ℚ) : Bool :=
  match a, b with
  | some x, some y => decide (y < x)
  | _, _ => false

/-- JS `<` on two possibly-`NaN` numbers: any comparison with `NaN` is false. -/
def jsLt (a b : Option ℚ) : Bool :=
  match a, b with
  | some x, some y => decide (x < y)
  | _, _ => false

/-- JS strict equality `===` on `number | string` values: values of different
runtime types are never equal; same-type values compare structurally. -/
def strictEq (a b : Value) : Bool :=
  match a, b with
  | .num x, .num y => x == y
  | .str s, .str t => s == t
  | _, _ => false

/-- The per-clause callback of `submissions.filter(...)`/`filterClauses.every(...)`
in `src/app.ts` lines 127-163.  A clause whose id matches no question fails.
Otherwise both operands are coerced (`coerce`); the source then guards
`typeof filterValue !== typeof filterClause` and, in that branch, returns
`res.status(400).json(...)` — an Express `Response` object, which is truthy, so
the callback would report the clause as passing (the branch is proved
unreachable below).  Otherwise the condition tag is dispatched: equals and
does-not-equal use strict equality on the raw values; greater-than and
less-than compare the coerced operands; an unrecognized tag fails. -/
def clausePasses (submission : SubmissionType) (clause : FilterClauseType) : Bool :=
  match submission.questions.find? (fun q => q.id == clause.id) with
  | none => false
  | some question =>
      let filterValue := coerce question.type question.value
      let filterClause := coerce question.type clause.value
      if jsTypeof filterValue != jsTypeof filterClause then
        true
      else
        match clause.condition with
        | "equals" => strictEq question.value clause.value
        | "does_not_equal" => !strictEq question.value clause.value
        | "greater_than" => jsGt filterValue filterClause
        | "less_than" => jsLt filterValue filterClause
        | _ => false

/-- `filteredSubmissions` from `src/app.ts` lines 126-164: keep the submissions
for which every clause passes. -/
def filteredSubmissions (submissions : List SubmissionType)
    (filterClauses : List FilterClauseType) : List SubmissionType :=
  submissions.filter (fun submission =>
    filterClauses.all (fun clause => clausePasses submission clause))

/-- JS `Array.prototype.slice(start, end)` on a list: negative indices count
from the end of the array, and both indices are clamped to `[0, length]`. -/
def jsSlice {α : Type} (data : List α) (start finish : Int) : List α :=
  let len : Int := (data.length : Int)
  let s : Nat := (if start < 0 then max (len + start) 0 else min start len).toNat
  let e : Nat := (if finish < 0 then max (len + finish) 0 else min finish len).toNat
  (data.drop s).take (e - s)

/-- `Math.ceil(a / b)` for integers, modelled as the exact ceiling of the
rational quotient (`b = 0`, which in JS yields `Infinity`/`NaN`, is outside the
model; the handler's `parseInt(..) || 150` never passes `0`). -/
def jsMathCeilDiv (a b : Int) : Int :=
  -(Int.fdiv (-a) b)

/-- `paginateData` from `src/app.ts` lines 52-67. -/
def paginateData (data : List SubmissionType) (limit offset : Int) : ReturnType :=
  let startIndex : Int := offset
  let endIndex : Int := offset + limit
  let responses : List SubmissionType := jsSlice data startIndex endIndex
  let totalResponses : Nat := responses.length
  let pageCount : Int := jsMathCeilDiv (data.length : Int) limit
  { responses := responses
    totalResponses := totalResponses
    pageCount := pageCount }

/-- JS truthiness check `!x` on an optional string (absent header/param is
`undefined`; the empty string is also falsy). -/
def falsyOptStr (o : Option String) : Bool :=
  match o with
  | none => true
  | some s => s == ""

/-- The JSON request body: either an array of filter clauses or any other JSON
value (for which `Array.isArray` is false). -/
inductive Body where
  | arr (cs : List FilterClauseType)
  | nonArray
deriving DecidableEq, Repr

/-- An inbound request to `GET /:formId/filteredResponses`: route parameter,
parsed JSON body, `Authorization` header, and the two query parameters. -/
structure Req where
  formId : String
  body : Body
  authorization : Option String
  limitParam : Option String
  offsetParam : Option String
deriving DecidableEq, Repr

/-- What the handler does with the response object:
* `thrown s msg` — `res.status(s)` was set and then `throw new Error(msg)`
  escaped the handler (no JSON body was serialized by the handler);
* `jsonError s e` — `res.status(s).json({error: e})`;
* `jsonOk body` — `res.json(body)` with the paginated result (status 200). -/
inductive Outcome where
  | thrown (status : Int) (msg : String)
  | jsonError (status : Int) (error : String)
  | jsonOk (body : ReturnType)
deriving DecidableEq, Repr

/-- Whether an outcome is a JSON error response (`res.status(..).json({error: ..})`). -/
def Outcome.isJsonErr : Outcome → Bool
  | .jsonError _ _ => true
  | _ => false

/-- The request handler of `src/app.ts` lines 69-185, on the happy upstream
path: `upstream` is the `responses` array of a 200 upstream reply (the
non-200/non-array upstream branches and transport errors are outside the
claims in scope).  Returns the response outcome paired with a flag recording
whether control reached the upstream `axios.get` call.  Checks run in source
order: missing/empty authorization (403, thrown), falsy `formId` (400,
thrown), non-array body (400 JSON), empty clause array (400 JSON) — the
source's `!req.body` disjunct on line 98 is dead there, an array being truthy —
then fetch, filter and paginate. -/
def handler (req : Req) (upstream : List SubmissionType) : Outcome × Bool :=
  let limit := parseIntOr req.limitParam 150
  let offset := parseIntOr req.offsetParam 0
  if falsyOptStr req.authorization then
    (.thrown 403 "Please provide a valid API key.", false)
  else if req.formId == "" then
    (.thrown 400 "Please provide a valid form ID.", false)
  else
    match req.body with
    | .nonArray => (.jsonError 400 "Invalid filter clauses - must be an array", false)
    | .arr filterClauses =>
        if filterClauses.isEmpty then
          (.jsonError 400 "Please provide atleast 1 filter.", false)
        else
          (.jsonOk (paginateData (filteredSubmissions upstream filterClauses) limit offset),
            true)

/-! Concrete fixtures used by witnesses and counterexamples. -/

/-- A submission skeleton: only `questions` matters to the filter engine. -/
def mkSub (sid : String) (qs : List QuestionType) : SubmissionType :=
  { submissionId := sid
    submissionTime := "2024-03-01T00:00:00.000Z"
    lastUpdatedAt := "2024-03-01T00:00:00.000Z"
    questions := qs
    calculations := []
    urlParameters := []
    quiz := .mk
    documents := [] }

/-- A short-answer question answered `"yes"`. -/
def qYes : QuestionType := ⟨"q1", "Consent", "ShortAnswer", .str "yes"⟩

/-- Submissions all answering `qYes`. -/
def subYes1 : SubmissionType := mkSub "s1" [qYes]

/-- Second submission answering `qYes`. -/
def subYes2 : SubmissionType := mkSub "s2" [qYes]

/-- Third submission answering `qYes`. -/
def subYes3 : SubmissionType := mkSub "s3" [qYes]

/-- Clause matching `qYes` by strict equality. -/
def cYes : FilterClauseType := ⟨"q1", "equals", .str "yes"⟩

/-- Date-typed question answered `"2024-01-01"`. -/
def qDate2024 : QuestionType := ⟨"q2", "EventDate", "DatePicker", .str "2024-01-01"⟩

/-- Date-typed question answered `"2023-01-01"`. -/
def qDate2023 : QuestionType := ⟨"q2", "EventDate", "DatePicker", .str "2023-01-01"⟩

/-- Submission whose event date is 2024-01-01. -/
def subDate2024 : SubmissionType := mkSub "sd1" [qDate2024]

/-- Submission whose event date is 2023-01-01. -/
def subDate2023 : SubmissionType := mkSub "sd2" [qDate2023]

/-- Clause: event date strictly after 2023-01-01. -/
def cDateGt2023 : FilterClauseType := ⟨"q2", "greater_than", .str "2023-01-01"⟩

/-- Clause: event date strictly after 2024-01-01. -/
def cDateGt2024 : FilterClauseType := ⟨"q2", "greater_than", .str "2024-01-01"⟩

/-- Short-answer question whose value `"abc"` coerces to `NaN` under `Number`. -/
def qAbc : QuestionType := ⟨"q3", "Age", "ShortAnswer", .str "abc"⟩

/-- Submission carrying `qAbc`. -/
def subAbc : SubmissionType := mkSub "sa" [qAbc]

/-- Numeric greater-than clause against `qAbc`. -/
def cGt5 : FilterClauseType := ⟨"q3", "greater_than", .num 5⟩

/-- Question whose id matches no clause used below. -/
def qOther : QuestionType := ⟨"other", "Misc", "ShortAnswer", .str "x"⟩

/-- Submission with no question matching `cYes`. -/
def subOther : SubmissionType := mkSub "so" [qOther]

/-- Well-formed request whose single clause hits the NaN coercion. -/
def reqAbc : Req := ⟨"form1", .arr [cGt5], some "key", none, none⟩

/-- Request with no Authorization header. -/
def reqNoAuth : Req := ⟨"form1", .arr [cYes], none, none, none⟩

/-- Authorized request whose filter array is empty. -/
def reqEmptyFilters : Req := ⟨"form1", .arr [], some "key", none, none⟩

/-- Authorized request with offset query parameter `-2`. -/
def reqNegOffset : Req := ⟨"form1", .arr [cYes], some "key", none, some "-2"⟩

/-! Claim theorems. -/

/-- C1: for every list of submissions and every non-empty list of filter
clauses, a submission appears in the filtered result iff it satisfies every
clause in the list (logical AND over clauses). -/
theorem filteredSubmissions_mem_iff_all_clauses
    (subs : List SubmissionType) (cs : List FilterClauseType) (s : SubmissionType)
    (hmem : s ∈ subs) (_hne : cs ≠ []) :
    s ∈ filteredSubmissions subs cs ↔ ∀ c ∈ cs, clausePasses s c = true := by
  unfold filteredSubmissions
  rw [List.mem_filter]
  simp [List.all_eq_true, hmem]

/-- Witness for C1 at a concrete submission and clause list. -/
theorem filteredSubmissions_mem_iff_all_clauses_witness :
    subYes1 ∈ [subYes1, subOther] ∧ ([cYes] : List FilterClauseType) ≠ [] ∧
      (subYes1 ∈ filteredSubmissions [subYes1, subOther] [cYes] ↔
        ∀ c ∈ [cYes], clausePasses subYes1 c = true) :=
  ⟨by decide, by decide,
    filteredSubmissions_mem_iff_all_clauses [subYes1, subOther] [cYes] subYes1
      (by decide) (by decide)⟩

/-- C4: equals and does-not-equal compare the raw stored value to the clause
value by strict equality, with no numeric or date coercion; in particular the
stored number `5` and the clause string `"5"` are not equal. -/
theorem equals_uses_strict_raw_equality (sub : SubmissionType) (c : FilterClauseType)
    (q : QuestionType)
    (hfind : sub.questions.find? (fun x => x.id == c.id) = some q) :
    (c.condition = "equals" → clausePasses sub c = strictEq q.value c.value) ∧
    (c.condition = "does_not_equal" → clausePasses sub c = !strictEq q.value c.value) ∧
    strictEq (Value.num 5) (Value.str "5") = false := by
  refine ⟨?_, ?_, by decide⟩ <;> intro hc <;>
    simp [clausePasses, hfind, hc, jsTypeof]

/-- Witness for C4 at a concrete submission and equals clause. -/
theorem equals_uses_strict_raw_equality_witness :
    subYes1.questions.find? (fun x => x.id == cYes.id) = some qYes ∧
      ((cYes.condition = "equals" →
          clausePasses subYes1 cYes = strictEq qYes.value cYes.value) ∧
        (cYes.condition = "does_not_equal" →
          clausePasses subYes1 cYes = !strictEq qYes.value cYes.value) ∧
        strictEq (Value.num 5) (Value.str "5") = false) :=
  ⟨by decide, equals_uses_strict_raw_equality subYes1 cYes qYes (by decide)⟩

/-- C5: greater-than and less-than compare the two operands coerced by the
question's type tag — epoch milliseconds when the tag is `"DatePicker"`,
`Number(...)` otherwise; concretely, a date-typed answer `"2024-01-01"` passes
`greater_than "2023-01-01"` and fails with the values reversed. -/
theorem comparison_coercion_date_vs_numeric (sub : SubmissionType)
    (c : FilterClauseType) (q : QuestionType)
    (hfind : sub.questions.find? (fun x => x.id == c.id) = some q) :
    (c.condition = "greater_than" →
        clausePasses sub c = jsGt (coerce q.type q.value) (coerce q.type c.value)) ∧
    (c.condition = "less_than" →
        clausePasses sub c = jsLt (coerce q.type q.value) (coerce q.type c.value)) ∧
    (q.type = "DatePicker" →
        coerce q.type q.value = dateGetTime q.value ∧
        coerce q.type c.value = dateGetTime c.value) ∧
    (q.type ≠ "DatePicker" →
        coerce q.type q.value = jsNumber q.value ∧
        coerce q.type c.value = jsNumber c.value) ∧
    clausePasses subDate2024 cDateGt2023 = true ∧
    clausePasses subDate2023 cDateGt2024 = false := by
  refine ⟨?_, ?_, ?_, ?_, by decide, by decide⟩
  · intro hc
    simp [clausePasses, hfind, hc, jsTypeof]
  · intro hc
    simp [clausePasses, hfind, hc, jsTypeof]
  · intro hq
    constructor <;> simp [coerce, hq]
  · intro hq
    constructor <;> simp [coerce, beq_iff_eq, hq]

/-- Witness for C5 at a concrete date-typed submission and clause. -/
theorem comparison_coercion_date_vs_numeric_witness :
    subDate2024.questions.find? (fun x => x.id == cDateGt2023.id) = some qDate2024 ∧
      ((cDateGt2023.condition = "greater_than" →
          clausePasses subDate2024 cDateGt2023 =
            jsGt (coerce qDate2024.type qDate2024.value)
              (coerce qDate2024.type cDateGt2023.value)) ∧
        (cDateGt2023.condition = "less_than" →
          clausePasses subDate2024 cDateGt2023 =
            jsLt (coerce qDate2024.type qDate2024.value)
              (coerce qDate2024.type cDateGt2023.value)) ∧
        (qDate2024.type = "DatePicker" →
          coerce qDate2024.type qDate2024.value = dateGetTime qDate2024.value ∧
          coerce qDate2024.type cDateGt2023.value = dateGetTime cDateGt2023.value) ∧
        (qDate2024.type ≠ "DatePicker" →
          coerce qDate2024.type qDate2024.value = jsNumber qDate2024.value ∧
          coerce qDate2024.type cDateGt2023.value = jsNumber cDateGt2023.value) ∧
        clausePasses subDate2024 cDateGt2023 = true ∧
        clausePasses subDate2023 cDateGt2024 = false) :=
  ⟨by decide,
    comparison_coercion_date_vs_numeric subDate2024 cDateGt2023 qDate2024 (by decide)⟩

/-- C8: a clause whose target identifier matches no question-answer of a
submission fails for that submission, so the submission is excluded from the
filtered result. -/
theorem missing_question_excludes_submission (subs : List SubmissionType)
    (cs : List FilterClauseType) (s : SubmissionType) (c : FilterClauseType)
    (hc : c ∈ cs) (habsent : ∀ q ∈ s.questions, q.id ≠ c.id) :
    clausePasses s c = false ∧ s ∉ filteredSubmissions subs cs := by
  have hfind : s.questions.find? (fun q => q.id == c.id) = none := by
    rw [List.find?_eq_none]
    intro q hq
    simpa using habsent q hq
  have hfail : clausePasses s c = false := by
    simp [clausePasses, hfind]
  refine ⟨hfail, fun hmem => ?_⟩
  rw [filteredSubmissions, List.mem_filter] at hmem
  have hall := List.all_eq_true.mp hmem.2 c hc
  rw [hfail] at hall
  exact Bool.false_ne_true hall

/-- Witness for C8 at a concrete submission lacking the clause's target id. -/
theorem missing_question_excludes_submission_witness :
    cYes ∈ [cYes] ∧ (∀ q ∈ subOther.questions, q.id ≠ cYes.id) ∧
      (clausePasses subOther cYes = false ∧
        subOther ∉ filteredSubmissions [subOther] [cYes]) :=
  ⟨by decide, by decide,
    missing_question_excludes_submission [subOther] [cYes] subOther cYes
      (by decide) (by decide)⟩

/-- C9: both coerced comparison operands are JS numbers (NaN included), so the
source's `typeof` mismatch guard is never taken; when either operand coerces to
NaN, greater-than and less-than clauses evaluate to false, silently failing the
clause instead of raising an error. -/
theorem coerced_operands_always_number_nan_false (sub : SubmissionType)
    (c : FilterClauseType) (q : QuestionType)
    (hfind : sub.questions.find? (fun x => x.id == c.id) = some q)
    (hnan : coerce q.type q.value = none ∨ coerce q.type c.value = none) :
    jsTypeof (coerce q.type q.value) = jsTypeof (coerce q.type c.value) ∧
    (jsTypeof (coerce q.type q.value) != jsTypeof (coerce q.type c.value)) = false ∧
    (c.condition = "greater_than" → clausePasses sub c = false) ∧
    (c.condition = "less_than" → clausePasses sub c = false) := by
  refine ⟨rfl, by simp [jsTypeof], ?_, ?_⟩ <;> intro hcond
  · have hred : clausePasses sub c =
        jsGt (coerce q.type q.value) (coerce q.type c.value) := by
      simp [clausePasses, hfind, hcond, jsTypeof]
    rw [hred]
    cases hA : coerce q.type q.value <;> cases hB : coerce q.type c.value <;>
      rcases hnan with h | h <;> simp_all [jsGt]
  · have hred : clausePasses sub c =
        jsLt (coerce q.type q.value) (coerce q.type c.value) := by
      simp [clausePasses, hfind, hcond, jsTypeof]
    rw [hred]
    cases hA : coerce q.type q.value <;> cases hB : coerce q.type c.value <;>
      rcases hnan with h | h <;> simp_all [jsLt]

/-- Witness for C9 at a concrete NaN-coercing submission and clause. -/
theorem coerced_operands_always_number_nan_false_witness :
    subAbc.questions.find? (fun x => x.id == cGt5.id) = some qAbc ∧
      coerce qAbc.type qAbc.value = none ∧
      (jsTypeof (coerce qAbc.type qAbc.value) = jsTypeof (coerce qAbc.type cGt5.value) ∧
        (jsTypeof (coerce qAbc.type qAbc.value) !=
          jsTypeof (coerce qAbc.type cGt5.value)) = false ∧
        (cGt5.condition = "greater_than" → clausePasses subAbc cGt5 = false) ∧
        (cGt5.condition = "less_than" → clausePasses subAbc cGt5 = false)) :=
  ⟨by decide, by decide,
    coerced_operands_always_number_nan_false subAbc cGt5 qAbc (by decide)
      (Or.inl (by decide))⟩

/-- C3 (code bug): when an operand coerces to NaN (here the stored value
`"abc"` against the numeric clause value `5`), the coerced operands still share
JS type `"number"`, so the 400 "Invalid filter type" branch does not fire; the
clause silently fails, the submission is excluded, and the request completes
with a 200 JSON page — not the bad-request error the spec requires. -/
theorem nan_coercion_silently_excludes_no_400 :
    coerce qAbc.type qAbc.value = none ∧
    (jsTypeof (coerce qAbc.type qAbc.value) !=
      jsTypeof (coerce qAbc.type cGt5.value)) = false ∧
    clausePasses subAbc cGt5 = false ∧
    handler reqAbc [subAbc] =
      (.jsonOk (paginateData [] 150 0), true) ∧
    (handler reqAbc [subAbc]).1.isJsonErr = false := by
  refine ⟨by decide, by decide, by decide, by decide, by decide⟩

/-- C6 counterexample: at a concrete request with no Authorization header, the
handler sets status 403 and throws; it does not produce a JSON error response,
contradicting the claim that the error response is a JSON object with a single
`error` field. -/
theorem missing_auth_thrown_not_json :
    handler reqNoAuth [] = (.thrown 403 "Please provide a valid API key.", false) ∧
    (handler reqNoAuth []).1.isJsonErr = false := by
  refine ⟨by decide, by decide⟩

/-- C6 (amended): for every request lacking the Authorization header, the
handler sets status 403 and throws `"Please provide a valid API key."` before
any upstream call or filtering occurs; the handler itself serializes no JSON
error body on this path. -/
theorem missing_auth_sets_403_and_throws (req : Req) (upstream : List SubmissionType)
    (h : req.authorization = none) :
    handler req upstream = (.thrown 403 "Please provide a valid API key.", false) ∧
    (handler req upstream).1.isJsonErr = false := by
  constructor <;> simp [handler, falsyOptStr, h, Outcome.isJsonErr]

/-- Witness for the amended C6 at a concrete credential-less request. -/
theorem missing_auth_sets_403_and_throws_witness :
    reqNoAuth.authorization = none ∧
      (handler reqNoAuth [subYes1] =
          (.thrown 403 "Please provide a valid API key.", false) ∧
        (handler reqNoAuth [subYes1]).1.isJsonErr = false) :=
  ⟨rfl, missing_auth_sets_403_and_throws reqNoAuth [subYes1] rfl⟩

/-- C7: an otherwise-valid request whose filter-clause body is the empty array
is answered 400 with `{error: "Please provide atleast 1 filter."}` and the
upstream call is never attempted. -/
theorem empty_filters_400_no_upstream (req : Req) (upstream : List SubmissionType)
    (hauth : falsyOptStr req.authorization = false)
    (hfid : req.formId ≠ "")
    (hbody : req.body = .arr []) :
    handler req upstream =
      (.jsonError 400 "Please provide atleast 1 filter.", false) := by
  simp [handler, hauth, hbody, beq_iff_eq, hfid]

/-- Witness for C7 at a concrete empty-filter request. -/
theorem empty_filters_400_no_upstream_witness :
    falsyOptStr reqEmptyFilters.authorization = false ∧
      reqEmptyFilters.formId ≠ "" ∧
      handler reqEmptyFilters [subYes1] =
        (.jsonError 400 "Please provide atleast 1 filter.", false) :=
  ⟨by decide, by decide,
    empty_filters_400_no_upstream reqEmptyFilters [subYes1] (by decide) (by decide) rfl⟩

/-- Helper: JS `slice(off, off+lim)` with nonnegative `off` and `lim` is
drop-then-take. -/
theorem jsSlice_of_nonneg {α : Type} (data : List α) (off lim : Int)
    (hO : 0 ≤ off) (hL : 0 ≤ lim) :
    jsSlice data off (off + lim) = (data.drop off.toNat).take lim.toNat := by
  have h1 : ¬ off < 0 := by omega
  have h2 : ¬ off + lim < 0 := by omega
  simp only [jsSlice]
  rw [if_neg h1, if_neg h2]
  rcases le_or_lt (data.length : Int) off with hlen | hlen
  · have hs : (min off (data.length : Int)).toNat = data.length := by omega
    have hO' : data.length ≤ off.toNat := by omega
    rw [hs, List.drop_length, List.drop_eq_nil_of_le hO', List.take_nil, List.take_nil]
  · rcases le_or_lt (off + lim) (data.length : Int) with h3 | h3
    · have hs : (min off (data.length : Int)).toNat = off.toNat := by omega
      have he : (min (off + lim) (data.length : Int)).toNat = off.toNat + lim.toNat := by
        omega
      rw [hs, he]
      congr 1
      omega
    · have hs : (min off (data.length : Int)).toNat = off.toNat := by omega
      have he : (min (off + lim) (data.length : Int)).toNat = data.length := by omega
      rw [hs, he]
      have hd : (data.drop off.toNat).length = data.length - off.toNat :=
        List.length_drop _ _
      rw [List.take_of_length_le (by omega), List.take_of_length_le (by omega)]

/-- Helper: the integer `Math.ceil` division agrees with the exact rational
ceiling for a positive divisor. -/
theorem jsMathCeilDiv_eq_ceil (a b : Int) (hb : 0 < b) :
    jsMathCeilDiv a b = ⌈(a : ℚ) / (b : ℚ)⌉ := by
  unfold jsMathCeilDiv
  rw [Int.fdiv_eq_ediv _ (le_of_lt hb)]
  have hq := Int.ediv_add_emod (-a) b
  have h1 : 0 ≤ -a % b := Int.emod_nonneg _ (by omega)
  have h2 : -a % b < b := Int.emod_lt_of_pos _ hb
  have hbQ : (0 : ℚ) < (b : ℚ) := by exact_mod_cast hb
  symm
  rw [Int.ceil_eq_iff]
  constructor
  · rw [lt_div_iff₀ hbQ]
    have hInt : (-(-a / b) - 1) * b < a := by nlinarith [hq, h2]
    exact_mod_cast hInt
  · rw [div_le_iff₀ hbQ]
    have hInt : a ≤ -(-a / b) * b := by nlinarith [hq, h1]
    exact_mod_cast hInt

/-- C2: for a filtered set of size N, positive limit L and nonnegative offset
O, the returned page is elements `[O, O+L)` of the filtered set (empty when
`O ≥ N`), `pageCount` is the rational ceiling of `N / L`, and `totalResponses`
counts the items actually on the page. -/
theorem paginateData_page_and_count_spec (data : List SubmissionType) (L O : Int)
    (hL : 0 < L) (hO : 0 ≤ O) :
    (paginateData data L O).responses = (data.drop O.toNat).take L.toNat ∧
    ((data.length : Int) ≤ O → (paginateData data L O).responses = []) ∧
    (paginateData data L O).pageCount = ⌈((data.length : ℚ)) / (L : ℚ)⌉ ∧
    (paginateData data L O).totalResponses
      = ((data.drop O.toNat).take L.toNat).length := by
  have hresp : (paginateData data L O).responses = jsSlice data O (O + L) := rfl
  have hslice := jsSlice_of_nonneg data O L hO (le_of_lt hL)
  refine ⟨?_, ?_, ?_, ?_⟩
  · rw [hresp, hslice]
  · intro hNO
    rw [hresp, hslice, List.drop_eq_nil_of_le (by omega), List.take_nil]
  · have hpc : (paginateData data L O).pageCount
        = jsMathCeilDiv (data.length : Int) L := rfl
    rw [hpc, jsMathCeilDiv_eq_ceil _ _ hL]
    norm_num
  · have htr : (paginateData data L O).totalResponses
        = (jsSlice data O (O + L)).length := rfl
    rw [htr, hslice]

/-- Witness for C2 at a concrete three-element list, limit 2, offset 1. -/
theorem paginateData_page_and_count_spec_witness :
    (0 : Int) < 2 ∧ (0 : Int) ≤ 1 ∧
      ((paginateData [subYes1, subYes2, subYes3] 2 1).responses
          = (([subYes1, subYes2, subYes3] : List SubmissionType).drop
              (1 : Int).toNat).take (2 : Int).toNat ∧
        ((([subYes1, subYes2, subYes3] : List SubmissionType).length : Int) ≤ 1 →
          (paginateData [subYes1, subYes2, subYes3] 2 1).responses = []) ∧
        (paginateData [subYes1, subYes2, subYes3] 2 1).pageCount
          = ⌈((([subYes1, subYes2, subYes3] : List SubmissionType).length : ℚ))
              / ((2 : Int) : ℚ)⌉ ∧
        (paginateData [subYes1, subYes2, subYes3] 2 1).totalResponses
          = ((([subYes1, subYes2, subYes3] : List SubmissionType).drop
              (1 : Int).toNat).take (2 : Int).toNat).length) :=
  ⟨by decide, by decide,
    paginateData_page_and_count_spec [subYes1, subYes2, subYes3] 2 1
      (by decide) (by decide)⟩

/-- Helper: JS `slice` with a negative start whose window reaches the end of
the list returns the trailing elements. -/
theorem jsSlice_neg_trailing {α : Type} (data : List α) (off lim : Int)
    (hneg : off < 0) (h1 : 0 ≤ (data.length : Int) + off)
    (h2 : (data.length : Int) ≤ off + lim) :
    jsSlice data off (off + lim) = data.drop ((data.length : Int) + off).toNat := by
  have hnn : ¬ off + lim < 0 := by omega
  simp only [jsSlice]
  rw [if_pos hneg, if_neg hnn]
  have hs : (max ((data.length : Int) + off) 0).toNat
      = ((data.length : Int) + off).toNat := by omega
  have he : (min (off + lim) (data.length : Int)).toNat = data.length := by omega
  rw [hs, he]
  have hd : (data.drop ((data.length : Int) + off).toNat).length
      = data.length - ((data.length : Int) + off).toNat := List.length_drop _ _
  rw [List.take_of_length_le (by omega)]

/-- C10: a request whose offset query parameter parses to a negative integer
passes that value unclamped into the page slice; the slice's negative start is
interpreted from the end of the filtered list, so (when the window covers the
tail) the page consists of the trailing elements of the filtered set. -/
theorem negative_offset_unclamped_trailing_page (req : Req)
    (upstream : List SubmissionType) (cs : List FilterClauseType)
    (os : String) (o : Int)
    (hauth : falsyOptStr req.authorization = false)
    (hfid : req.formId ≠ "")
    (hbody : req.body = .arr cs) (hcs : cs ≠ [])
    (hop : req.offsetParam = some os)
    (ho : jsParseInt os = some o) (hneg : o < 0)
    (h1 : 0 ≤ ((filteredSubmissions upstream cs).length : Int) + o)
    (h2 : ((filteredSubmissions upstream cs).length : Int)
      ≤ o + parseIntOr req.limitParam 150) :
    parseIntOr req.offsetParam 0 = o ∧
    handler req upstream =
      (.jsonOk (paginateData (filteredSubmissions upstream cs)
        (parseIntOr req.limitParam 150) o), true) ∧
    (paginateData (filteredSubmissions upstream cs)
        (parseIntOr req.limitParam 150) o).responses
      = (filteredSubmissions upstream cs).drop
          (((filteredSubmissions upstream cs).length : Int) + o).toNat ∧
    (paginateData (filteredSubmissions upstream cs)
        (parseIntOr req.limitParam 150) o).responses.length = (-o).toNat := by
  have hparse : parseIntOr req.offsetParam 0 = o := by
    simp only [parseIntOr, hop, ho]
    rw [if_neg (by omega)]
  have hEmpty : cs.isEmpty = false := by
    cases cs
    · exact absurd rfl hcs
    · rfl
  have hhandler : handler req upstream =
      (.jsonOk (paginateData (filteredSubmissions upstream cs)
        (parseIntOr req.limitParam 150) (parseIntOr req.offsetParam 0)), true) := by
    simp [handler, hauth, hbody, beq_iff_eq, hfid, hEmpty]
  have hresp : (paginateData (filteredSubmissions upstream cs)
      (parseIntOr req.limitParam 150) o).responses
      = jsSlice (filteredSubmissions upstream cs) o
          (o + parseIntOr req.limitParam 150) := rfl
  have htrail := jsSlice_neg_trailing (filteredSubmissions upstream cs) o
    (parseIntOr req.limitParam 150) hneg h1 h2
  refine ⟨hparse, ?_, ?_, ?_⟩
  · rw [hhandler, hparse]
  · rw [hresp, htrail]
  · rw [hresp, htrail, List.length_drop]
    omega

/-- Witness for C10 at offset `-2` over three filtered submissions: the page is
the last two submissions. -/
theorem negative_offset_unclamped_trailing_page_witness :
    jsParseInt "-2" = some (-2) ∧ ((-2 : Int) < 0) ∧
      (paginateData (filteredSubmissions [subYes1, subYes2, subYes3] [cYes])
          (parseIntOr reqNegOffset.limitParam 150) (-2)).responses
        = [subYes2, subYes3] ∧
      (parseIntOr reqNegOffset.offsetParam 0 = -2 ∧
        handler reqNegOffset [subYes1, subYes2, subYes3] =
          (.jsonOk (paginateData
            (filteredSubmissions [subYes1, subYes2, subYes3] [cYes])
            (parseIntOr reqNegOffset.limitParam 150) (-2)), true) ∧
        (paginateData (filteredSubmissions [subYes1, subYes2, subYes3] [cYes])
            (parseIntOr reqNegOffset.limitParam 150) (-2)).responses
          = (filteredSubmissions [subYes1, subYes2, subYes3] [cYes]).drop
              (((filteredSubmissions [subYes1, subYes2, subYes3] [cYes]).length : Int)
                + (-2)).toNat ∧
        (paginateData (filteredSubmissions [subYes1, subYes2, subYes3] [cYes])
            (parseIntOr reqNegOffset.limitParam 150) (-2)).responses.length
          = (-(-2 : Int)).toNat) :=
  ⟨by decide, by decide, by decide,
    negative_offset_unclamped_trailing_page reqNegOffset [subYes1, subYes2, subYes3]
      [cYes] "-2" (-2) (by decide) (by decide) rfl (by decide) (by decide)
      (by decide) (by decide) (by decide) (by decide)⟩
